import Mathlib

/-!
Shallow embedding of `src/app.py` (class `GenerateVideo`): prompt derivation,
image synthesis with placeholder fallback, video assembly timing, and the
`generate` pipeline, together with proofs about them.
External collaborators (Groq text generation, the podcast/narration generator,
the Hugging Face image endpoint, moviepy's encoder) are modelled as oracle
inputs; the pure control flow and string/arithmetic logic is translated from
the source.
-/

deriving instance DecidableEq for Except

namespace VideoPy

/-! ## Python string and slice primitives -/

/-- Python `str.strip()` whitespace set (ASCII part, as relevant to line parsing). -/
def isPyWs (c : Char) : Bool :=
  c == ' ' || c == '\t' || c == '\n' || c == '\r' || c == '\x0b' || c == '\x0c'

/-- Python `line.strip()`: drop leading and trailing whitespace characters. -/
def pyStrip (s : String) : String :=
  String.mk (((s.data.dropWhile isPyWs).reverse.dropWhile isPyWs).reverse)

/-- Python slice `xs[:n]` for an `int` bound `n`: for `n ≥ 0` the first `n`
elements; for `n < 0` all elements but the last `|n|` (clamped at zero). -/
def pySliceTo {α : Type} (xs : List α) (n : Int) : List α :=
  if 0 ≤ n then xs.take n.toNat
  else xs.take (xs.length - (-n).toNat)

/-- Python `str.split('\n')` on the character list: splitting on a separator
keeps empty pieces and yields one more piece than separators. -/
def splitNlChars : List Char → List (List Char)
  | [] => [[]]
  | c :: rest =>
    if c == '\n' then [] :: splitNlChars rest
    else
      match splitNlChars rest with
      | [] => [[c]]
      | l :: ls => (c :: l) :: ls

/-- Python `response.split('\n')`. -/
def pySplitNl (s : String) : List String :=
  (splitNlChars s.data).map String.mk

/-- `cs` begins with the pattern `p` (Python `startswith` on the underlying
characters). -/
def charsStartWith : List Char → List Char → Bool
  | _, [] => true
  | [], _ :: _ => false
  | c :: cs, p :: ps => c == p && charsStartWith cs ps

/-- Python `line.startswith(m)` for strings. -/
def pyStartsWith (line m : String) : Bool :=
  charsStartWith line.data m.data

/-! ## PromptDeriver: `GenerateVideo._generate_prompts` -/

/-- The tuple passed to `line.startswith` in `_generate_prompts`. -/
def listMarkers : List String :=
  ["#", "1.", "2.", "3.", "4.", "5.", "6.", "7.", "8.", "9.", "10."]

/-- `line.startswith(('#', '1.', ..., '10.'))`. -/
def startsWithMarker (line : String) : Bool :=
  listMarkers.any (fun m => pyStartsWith line m)

/-- The filter condition `if line and not line.startswith((...))` applied to a
stripped line. -/
def keepLine (line : String) : Bool :=
  (line != "") && !startsWithMarker line

/-- The list built by the loop in `_generate_prompts`: split the response on
newlines, strip each line, keep the lines passing `keepLine`, in order. -/
def filteredPrompts (response : String) : List String :=
  ((pySplitNl response).map pyStrip).filter keepLine

/-- `_generate_prompts` after the collaborator response is fixed:
the filtered lines truncated by the Python slice `prompts[:num_prompts]`. -/
def generate_prompts (response : String) (num_prompts : Int) : List String :=
  pySliceTo (filteredPrompts response) num_prompts

/-- The `user_prompt` f-string built in `_generate_prompts`. -/
def mkUserPrompt (topic : String) (num_prompts : Int) : String :=
  "Generate " ++ toString num_prompts ++ " image prompts about " ++ topic ++
    " that would work well in a video sequence."

/-- `_generate_prompts` as the source writes it: one call to the text-generation
collaborator (`self.llm.generate`) with the constructed user prompt, whose
failure propagates, followed by the pure line filtering above. -/
def derivePrompts (llm : String → Except String String) (topic : String)
    (num_prompts : Int) : Except String (List String) :=
  match llm (mkUserPrompt topic num_prompts) with
  | Except.error e => Except.error e
  | Except.ok response => Except.ok (generate_prompts response num_prompts)

/-! ## ImageSynthesizer: `GenerateVideo._generate_image` -/

/-- Outcome of one image-generation HTTP interaction, as the oracle fixes it:
whether `requests.post` itself raised, the response status and text, the raw
byte payload, and whether PIL `open`+`save` would succeed on that payload. -/
structure ImgCall where
  transportError : Option String
  status : Nat
  text : String
  content : List Nat
  decodeOk : Bool
  deriving DecidableEq, Repr

/-- `b'\x89PNG'`. -/
def pngMagic : List Nat := [0x89, 0x50, 0x4E, 0x47]

/-- `b'\xFF\xD8\xFF'`. -/
def jpegMagic : List Nat := [0xFF, 0xD8, 0xFF]

/-- Python `bytes.startswith` on byte lists. -/
def startsWithBytes : List Nat → List Nat → Bool
  | _, [] => true
  | [], _ :: _ => false
  | b :: bs, m :: ms => b == m && startsWithBytes bs ms

/-- The inner `query` function: raise on transport failure, raise on a
non-200 status, otherwise return `response.content`. -/
def query (c : ImgCall) : Except String (List Nat) :=
  match c.transportError with
  | some e => Except.error e
  | none =>
    if c.status ≠ 200 then
      Except.error ("API request failed with status code " ++ toString c.status
        ++ ": " ++ c.text)
    else
      Except.ok c.content

/-- What `_generate_image` persists at `output_path`. -/
inductive WrittenFile where
  | real (content : List Nat)
  | placeholder (width height : Nat) (color : String)
  deriving DecidableEq, Repr

/-- `Image.new('RGB', (512, 512), color='gray')`. -/
def grayPlaceholder : WrittenFile :=
  WrittenFile.placeholder 512 512 "gray"

/-- The `try` block of `_generate_image`: query, magic-byte validation
(PNG or JPEG), then PIL decode and save. -/
def generate_image_attempt (c : ImgCall) : Except String WrittenFile :=
  match query c with
  | Except.error e => Except.error e
  | Except.ok image_bytes =>
    if !startsWithBytes image_bytes pngMagic && !startsWithBytes image_bytes jpegMagic then
      Except.error "Invalid image data received from API"
    else if !c.decodeOk then
      Except.error "PIL decode or save failed"
    else
      Except.ok (WrittenFile.real image_bytes)

/-- `_generate_image`: on any failure in the try block, persist the 512×512
gray placeholder instead; in every case return `output_path` together with the
file persisted there. -/
def generate_image (c : ImgCall) (output_path : String) : String × WrittenFile :=
  match generate_image_attempt c with
  | Except.ok f => (output_path, f)
  | Except.error _ => (output_path, grayPlaceholder)

/-! ## Constructor: `GenerateVideo.__init__` -/

/-- Python truthiness test `not self.groq_api_key` on an `os.getenv` result:
`None` and the empty string are falsy. -/
def pyFalsyOpt (s : Option String) : Bool :=
  match s with
  | none => true
  | some t => t == ""

/-- The f-string `f"Bearer {self.hf_api_key}"`; a missing key renders as the
literal `None`. -/
def bearerOf (hf : Option String) : String :=
  match hf with
  | none => "Bearer None"
  | some k => "Bearer " ++ k

/-- The state `__init__` establishes when it succeeds. -/
structure InitConfig where
  hf_api_key : Option String
  groq_api_key : String
  authHeader : String
  deriving DecidableEq, Repr

/-- `GenerateVideo.__init__` over an environment: read `HF_API_KEY` and
`GROQ_API_KEY`; raise `ValueError` when the Groq key is falsy; a missing
Hugging Face key is tolerated and flows into the auth header. -/
def GenerateVideo.init (env : String → Option String) : Except String InitConfig :=
  let hf := env "HF_API_KEY"
  let groq := env "GROQ_API_KEY"
  if pyFalsyOpt groq then
    Except.error "Missing GROQ_API_KEY in .env file."
  else
    Except.ok ⟨hf, groq.getD "", bearerOf hf⟩

/-! ## VideoAssembler: the moviepy calls in `generate`

The media primitive itself is external; its placement semantics are modelled
from the spec's timing contract (sequential, back-to-back, audio from time 0)
and, for the empty-input case, from the fact that
`concatenate_videoclips([])` fails. The per-clip duration expression
`audio_clip.duration / len(image_files)` is translated from the source,
including its position inside the list comprehension (evaluated once per
element, hence never on an empty list). -/

/-- Errors the pipeline can terminate with. -/
inductive PipelineError where
  | podcastError (msg : String)
  | llmError (msg : String)
  | zeroDivisionError
  | emptyConcatError
  | writeError (msg : String)
  deriving DecidableEq, Repr

/-- An image clip with its assigned display duration. -/
structure Clip where
  image : String
  duration : ℚ
  deriving DecidableEq, Repr

/-- A placed segment of the final video: image shown from `start` to `stop`. -/
structure Segment where
  image : String
  start : ℚ
  stop : ℚ
  deriving DecidableEq, Repr

/-- The assembled final clip: placed segments plus the audio track. -/
structure AssembledVideo where
  segments : List Segment
  audioStart : ℚ
  audioDur : ℚ
  deriving DecidableEq, Repr

/-- Python `/` on the duration: raises `ZeroDivisionError` on a zero
denominator, otherwise exact division. -/
def pyDiv (a : ℚ) (n : Nat) : Except PipelineError ℚ :=
  if n = 0 then Except.error PipelineError.zeroDivisionError
  else Except.ok (a / (n : ℚ))

/-- The list comprehension
`[mpy.ImageClip(img).set_duration(audio_clip.duration / len(image_files)) for img in image_files]`:
the division is evaluated inside the body, once per element of `files`, with
the fixed denominator `n = len(image_files)`. -/
def mkImageClips (D : ℚ) (n : Nat) : List String → Except PipelineError (List Clip)
  | [] => Except.ok []
  | img :: rest =>
    match pyDiv D n with
    | Except.error e => Except.error e
    | Except.ok dur =>
      match mkImageClips D n rest with
      | Except.error e => Except.error e
      | Except.ok cs => Except.ok (⟨img, dur⟩ :: cs)

/-- Sequential placement of clips starting at time `t`: each clip occupies
`[t, t + duration)` and the next starts where it stops. -/
def placeSegs : List Clip → ℚ → List Segment
  | [], _ => []
  | c :: rest, t => ⟨c.image, t, t + c.duration⟩ :: placeSegs rest (t + c.duration)

/-- Modelled from the spec and the external primitive's behaviour:
`mpy.concatenate_videoclips` places the clips back to back from time 0 and
fails on an empty clip list (the degenerate zero-images case). -/
def concatenate_videoclips (clips : List Clip) :
    Except PipelineError (List Segment) :=
  match clips with
  | [] => Except.error PipelineError.emptyConcatError
  | _ => Except.ok (placeSegs clips 0)

/-- Modelled from the spec: `final_clip.set_audio(audio_clip)` attaches the
whole audio track starting at time 0. -/
def set_audio (segs : List Segment) (D : ℚ) : AssembledVideo :=
  ⟨segs, 0, D⟩

/-- The final clip built in `generate` from the accumulated image files and the
audio duration: per-image clips, concatenation, audio attachment. -/
def videoOf (image_files : List String) (D : ℚ) :
    Except PipelineError AssembledVideo :=
  match mkImageClips D image_files.length image_files with
  | Except.error e => Except.error e
  | Except.ok clips =>
    match concatenate_videoclips clips with
    | Except.error e => Except.error e
    | Except.ok segs => Except.ok (set_audio segs D)

/-- Total visible duration of a segment list. -/
def totalDuration (segs : List Segment) : ℚ :=
  (segs.map (fun s => s.stop - s.start)).sum

/-- `chainedFrom segs t`: the first segment starts exactly at `t` and every
later segment starts exactly where its predecessor stops (back to back, no
gaps, no overlaps). -/
def chainedFrom : List Segment → ℚ → Bool
  | [], _ => true
  | s :: rest, t => (decide (s.start = t)) && chainedFrom rest s.stop

/-! ## Pipeline: `GenerateVideo.generate` -/

/-- The external collaborators of one `generate` run, fixed as oracles:
the podcast generator (topic → audio path, or an exception), the probed audio
duration, the text-generation call (user prompt → response text, or an
exception), the per-call image-endpoint outcome (call index and prompt →
`ImgCall`), the outcome of `write_videofile`, and whether `os.remove`
succeeds on each path. -/
structure Oracle where
  podcast : String → Except String String
  audioDuration : String → ℚ
  llm : String → Except String String
  image : Nat → String → ImgCall
  writeResult : Except String Unit
  removeOk : String → Bool

/-- The f-string `f"output_{i}.png"`. -/
def mkOutputFile (i : Nat) : String :=
  "output_" ++ toString i ++ ".png"

/-- The image loop `for i, prompt in enumerate(prompts, 1)`: synthesize each
prompt to `output_<i>.png` (1-based), accumulating `(returned path, file
persisted)` pairs in order. -/
def synthesizeAll (o : Oracle) : Nat → List String → List (String × WrittenFile)
  | _, [] => []
  | i, p :: rest =>
    generate_image (o.image i p) (mkOutputFile i) :: synthesizeAll o (i + 1) rest

/-- Observable end state of a `generate` run: the intermediate image files
created in step 3, the files `os.remove` was invoked on, the intermediate
files still existing on exit, and the final video if it was written. -/
structure RunState where
  created : List String
  cleanupAttempted : List String
  existing : List String
  video : Option AssembledVideo
  deriving DecidableEq, Repr

/-- Steps 4–6 of `generate` once the intermediate image files exist: build the
final clip, run `write_videofile`, and only after a successful write run the
cleanup loop (whose per-file `os.remove` failures are swallowed). An exception
in assembly or writing propagates at that point, leaving the intermediate
files in place with no removal attempted. -/
def assembleAndCleanup (o : Oracle) (output_path : String)
    (image_files : List String) (D : ℚ) :
    Except PipelineError String × RunState :=
  match videoOf image_files D with
  | Except.error e => (Except.error e, ⟨image_files, [], image_files, none⟩)
  | Except.ok v =>
    match o.writeResult with
    | Except.error e =>
      (Except.error (PipelineError.writeError e), ⟨image_files, [], image_files, none⟩)
    | Except.ok _ =>
      (Except.ok output_path,
        ⟨image_files, image_files,
          image_files.filter (fun f => !o.removeOk f), some v⟩)

/-- `GenerateVideo.generate`: podcast, prompt derivation, the image loop,
then assembly, `write_videofile` and cleanup via `assembleAndCleanup`. -/
def generate (o : Oracle) (topic output_path : String) (fps : Nat)
    (num_prompts : Int) : Except PipelineError String × RunState :=
  match o.podcast topic with
  | Except.error e => (Except.error (PipelineError.podcastError e), ⟨[], [], [], none⟩)
  | Except.ok audio_path =>
    match derivePrompts o.llm topic num_prompts with
    | Except.error e => (Except.error (PipelineError.llmError e), ⟨[], [], [], none⟩)
    | Except.ok prompts =>
      assembleAndCleanup o output_path ((synthesizeAll o 1 prompts).map Prod.fst)
        (o.audioDuration audio_path)

/-! ## Helper lemmas -/

/-- Whether an `Except` result is a success. -/
def isOkE {ε α : Type} : Except ε α → Bool
  | Except.ok _ => true
  | Except.error _ => false

/-- `_generate_image` returns its `output_path` argument on every path. -/
theorem generate_image_fst (c : ImgCall) (p : String) :
    (generate_image c p).1 = p := by
  unfold generate_image
  cases generate_image_attempt c <;> rfl

/-- If the try block of `_generate_image` succeeds, every failure condition was
absent: no transport error, status 200, a recognised magic prefix, and a
successful decode. -/
theorem attempt_ok_conditions (c : ImgCall) (f : WrittenFile)
    (h : generate_image_attempt c = Except.ok f) :
    c.transportError = none ∧ c.status = 200 ∧
    (startsWithBytes c.content pngMagic = true ∨
      startsWithBytes c.content jpegMagic = true) ∧
    c.decodeOk = true := by
  unfold generate_image_attempt query at h
  cases hte : c.transportError with
  | some e => rw [hte] at h; simp at h
  | none =>
    rw [hte] at h
    by_cases hs : c.status = 200
    · simp only [hs, if_neg (by simp : ¬ (200 : Nat) ≠ 200)] at h
      by_cases hm : (!startsWithBytes c.content pngMagic &&
          !startsWithBytes c.content jpegMagic) = true
      · rw [if_pos hm] at h; simp at h
      · rw [if_neg hm] at h
        by_cases hd : (!c.decodeOk) = true
        · rw [if_pos hd] at h; simp at h
        · refine ⟨rfl, hs, ?_, by simpa using hd⟩
          by_cases hp1 : startsWithBytes c.content pngMagic = true
          · exact Or.inl hp1
          · right
            have hp0 : startsWithBytes c.content pngMagic = false := by
              simpa using hp1
            simpa [hp0] using hm
    · rw [if_pos hs] at h; simp at h

/-- The image loop produces exactly one entry per prompt. -/
theorem synthesizeAll_length (o : Oracle) (ps : List String) :
    ∀ i, (synthesizeAll o i ps).length = ps.length := by
  induction ps with
  | nil => intro i; rfl
  | cons p rest ih =>
    intro i
    simp [synthesizeAll, ih (i + 1)]

/-- The paths accumulated by the image loop started at index `i` are exactly
`output_<i>.png, output_<i+1>.png, ...`, one per prompt, in order. -/
theorem synthesizeAll_map_fst (o : Oracle) (ps : List String) :
    ∀ i, (synthesizeAll o i ps).map Prod.fst =
      (List.range ps.length).map (fun k => mkOutputFile (i + k)) := by
  induction ps with
  | nil => intro i; rfl
  | cons p rest ih =>
    intro i
    rw [List.length_cons, List.range_succ_eq_map]
    simp only [synthesizeAll, List.map_cons, List.map_map, generate_image_fst,
      Nat.add_zero, ih (i + 1)]
    refine congrArg (List.cons (mkOutputFile i)) ?_
    apply List.map_congr_left
    intro k _
    simp only [Function.comp_apply]
    congr 1
    omega

/-- With a nonzero denominator, the clip-construction comprehension succeeds
and gives every image the same duration `D / n`. -/
theorem mkImageClips_ok (D : ℚ) (n : Nat) (hn : n ≠ 0) (files : List String) :
    mkImageClips D n files =
      Except.ok (files.map (fun img => ⟨img, D / (n : ℚ)⟩)) := by
  induction files with
  | nil => rfl
  | cons f rest ih =>
    simp [mkImageClips, pyDiv, if_neg hn, ih]

/-- Sequential placement is back to back from its starting time. -/
theorem placeSegs_chained (clips : List Clip) :
    ∀ t : ℚ, chainedFrom (placeSegs clips t) t = true := by
  induction clips with
  | nil => intro t; rfl
  | cons c rest ih =>
    intro t
    simp only [placeSegs, chainedFrom, Bool.and_eq_true, decide_eq_true_eq]
    exact ⟨trivial, ih (t + c.duration)⟩

/-- Sequential placement preserves the clip images in order. -/
theorem placeSegs_map_image (clips : List Clip) :
    ∀ t : ℚ, (placeSegs clips t).map Segment.image = clips.map Clip.image := by
  induction clips with
  | nil => intro t; rfl
  | cons c rest ih =>
    intro t
    simp [placeSegs, ih (t + c.duration)]

/-- The total visible duration of sequentially placed clips is the sum of
their durations. -/
theorem placeSegs_totalDuration (clips : List Clip) :
    ∀ t : ℚ, totalDuration (placeSegs clips t) = (clips.map Clip.duration).sum := by
  induction clips with
  | nil => intro t; rfl
  | cons c rest ih =>
    intro t
    simp only [placeSegs, totalDuration, List.map_cons, List.sum_cons] at ih ⊢
    rw [ih (t + c.duration), add_sub_cancel_left]

/-- If every clip has duration `d`, every placed segment is visible for
exactly `d`. -/
theorem placeSegs_seg_duration (clips : List Clip) (d : ℚ)
    (hall : ∀ c ∈ clips, c.duration = d) :
    ∀ t : ℚ, ∀ s ∈ placeSegs clips t, s.stop - s.start = d := by
  induction clips with
  | nil => intro t s hs; simp [placeSegs] at hs
  | cons c rest ih =>
    intro t s hs
    simp only [placeSegs, List.mem_cons] at hs
    rcases hs with rfl | hs
    · have hc : c.duration = d := hall c (by simp)
      simp [hc]
    · exact ih (fun x hx => hall x (by simp [hx])) (t + c.duration) s hs

/-- In every branch of steps 4–6 the `created` component records exactly the
image files handed over from step 3. -/
theorem assembleAndCleanup_created (o : Oracle) (op : String)
    (files : List String) (D : ℚ) :
    (assembleAndCleanup o op files D).2.created = files := by
  unfold assembleAndCleanup
  split
  · rfl
  · split <;> rfl

/-! ## Claim theorems -/

/-- Claim C3: for every prompt outcome and destination path, image synthesis
never raises and always returns the destination path; on any failure (transport
error, non-200 status, payload matching neither the PNG magic bytes
`0x89 0x50 0x4E 0x47` nor the JPEG magic bytes `0xFF 0xD8 0xFF`, or decode
error) the fixed 512×512 solid-gray placeholder is persisted at the
destination instead. -/
theorem C3_image_synthesis_never_raises (c : ImgCall) (p : String) :
    (generate_image c p).1 = p ∧
    ((c.transportError ≠ none ∨ c.status ≠ 200 ∨
        (startsWithBytes c.content pngMagic = false ∧
          startsWithBytes c.content jpegMagic = false) ∨
        c.decodeOk = false) →
      (generate_image c p).2 = WrittenFile.placeholder 512 512 "gray") := by
  refine ⟨generate_image_fst c p, ?_⟩
  intro hfail
  cases hA : generate_image_attempt c with
  | error e => simp [generate_image, hA, grayPlaceholder]
  | ok f =>
    obtain ⟨h1, h2, h3, h4⟩ := attempt_ok_conditions c f hA
    rcases hfail with h | h | ⟨ha, hb⟩ | h
    · exact absurd h1 h
    · exact absurd h2 h
    · rcases h3 with h3 | h3
      · rw [h3] at ha; cases ha
      · rw [h3] at hb; cases hb
    · rw [h4] at h; cases h

/-- A forced-failure image call: the endpoint answers with a 503 status. -/
def badStatusCall : ImgCall := ⟨none, 503, "service unavailable", [], true⟩

/-- Witness for C3 at a concrete forced-failure call. -/
theorem C3_witness :
    (generate_image badStatusCall "output_1.png").1 = "output_1.png" ∧
    (generate_image badStatusCall "output_1.png").2 =
      WrittenFile.placeholder 512 512 "gray" :=
  ⟨(C3_image_synthesis_never_raises badStatusCall "output_1.png").1,
    (C3_image_synthesis_never_raises badStatusCall "output_1.png").2
      (Or.inr (Or.inl (by decide)))⟩

/-- Claim C4: for every collaborator text block and every count `k ≥ 1`,
prompt derivation returns at most `k` strings; the response is split into
lines, each line trimmed, empty lines and lines starting with `#` or a marker
`1.`–`10.` discarded, the survivors kept in original order (a sublist of the
trimmed lines, hence no reordering and no deduplication) and truncated to at
most `k` entries. -/
theorem C4_prompt_derivation (r : String) (k : Int) (hk : 1 ≤ k) :
    (generate_prompts r k).length ≤ k.toNat ∧
    (generate_prompts r k).Sublist ((pySplitNl r).map pyStrip) ∧
    ∀ p ∈ generate_prompts r k, p ≠ "" ∧ startsWithMarker p = false := by
  have h0 : (0 : Int) ≤ k := by omega
  have hg : generate_prompts r k = (filteredPrompts r).take k.toNat := by
    simp [generate_prompts, pySliceTo, h0]
  rw [hg]
  refine ⟨List.length_take_le k.toNat (filteredPrompts r), ?_, ?_⟩
  · exact (List.take_sublist k.toNat (filteredPrompts r)).trans
      (List.filter_sublist ((pySplitNl r).map pyStrip))
  · intro p hp
    have hp2 : p ∈ filteredPrompts r := List.mem_of_mem_take hp
    have hk2 : keepLine p = true := List.of_mem_filter hp2
    have hk3 := hk2
    simp only [keepLine, Bool.and_eq_true, bne_iff_ne, Bool.not_eq_true'] at hk3
    exact hk3

/-- A sample collaborator response containing a header line, numbered-marker
lines, blank lines, and three content lines. -/
def sampleResponse : String :=
  "# Prompts\n1. numbered\n  first scene  \n\nsecond scene\n10. ignored\nthird scene"

/-- Witness for C4 at a concrete response and `k = 2`. -/
theorem C4_witness :
    (generate_prompts sampleResponse 2).length ≤ (2 : Int).toNat ∧
    (generate_prompts sampleResponse 2).Sublist
      ((pySplitNl sampleResponse).map pyStrip) ∧
    ∀ p ∈ generate_prompts sampleResponse 2, p ≠ "" ∧ startsWithMarker p = false :=
  C4_prompt_derivation sampleResponse 2 (by decide)

/-- Claim C7: at construction, a falsy `GROQ_API_KEY` raises an error naming
the missing credential, while a missing `HF_API_KEY` is tolerated (construction
succeeds, with the literal `None` interpolated into the auth header) and any
subsequent image call that consequently fails with a non-success status falls
back to the gray placeholder. -/
theorem C7_credential_policy (env : String → Option String) :
    (pyFalsyOpt (env "GROQ_API_KEY") = true →
      GenerateVideo.init env = Except.error "Missing GROQ_API_KEY in .env file.") ∧
    (pyFalsyOpt (env "GROQ_API_KEY") = false → env "HF_API_KEY" = none →
      GenerateVideo.init env =
        Except.ok ⟨none, (env "GROQ_API_KEY").getD "", "Bearer None"⟩) ∧
    ∀ (c : ImgCall) (p : String), c.status ≠ 200 →
      (generate_image c p).2 = WrittenFile.placeholder 512 512 "gray" := by
  refine ⟨?_, ?_, ?_⟩
  · intro h
    simp [GenerateVideo.init, h]
  · intro h hh
    simp [GenerateVideo.init, h, hh, bearerOf]
  · intro c p h
    cases hA : generate_image_attempt c with
    | error e => simp [generate_image, hA, grayPlaceholder]
    | ok f => exact absurd (attempt_ok_conditions c f hA).2.1 h

/-- An environment with only the Groq credential set. -/
def envGroqOnly : String → Option String :=
  fun k => if k == "GROQ_API_KEY" then some "gsk-key" else none

/-- An empty environment (both credentials missing). -/
def envEmpty : String → Option String := fun _ => none

/-- Witness for C7: the empty environment is fatal, the Groq-only environment
constructs successfully, and a concrete 503 response falls back. -/
theorem C7_witness :
    GenerateVideo.init envEmpty = Except.error "Missing GROQ_API_KEY in .env file." ∧
    GenerateVideo.init envGroqOnly = Except.ok ⟨none, "gsk-key", "Bearer None"⟩ ∧
    (generate_image ⟨none, 503, "no token", [], true⟩ "output_2.png").2 =
      WrittenFile.placeholder 512 512 "gray" :=
  ⟨(C7_credential_policy envEmpty).1 (by decide),
    (C7_credential_policy envGroqOnly).2.1 (by decide) (by decide),
    (C7_credential_policy envGroqOnly).2.2 ⟨none, 503, "no token", [], true⟩
      "output_2.png" (by decide)⟩

/-- Claim C9: for a negative `num_prompts`, the truncation `prompts[:n]` has
Python negative-slice semantics: it keeps all filtered lines except the last
`|n|`, so the result can be nonempty (the `≤ count` bound of the derivation
contract holds only for nonnegative counts). -/
theorem C9_negative_slice (r : String) (n : Int) (hn : n < 0)
    (hlen : (-n).toNat < (filteredPrompts r).length) :
    generate_prompts r n =
      (filteredPrompts r).take ((filteredPrompts r).length - (-n).toNat) ∧
    0 < (generate_prompts r n).length := by
  have h0 : ¬ (0 : Int) ≤ n := by omega
  have hg : generate_prompts r n =
      (filteredPrompts r).take ((filteredPrompts r).length - (-n).toNat) := by
    simp [generate_prompts, pySliceTo, h0]
  refine ⟨hg, ?_⟩
  rw [hg, List.length_take]
  omega

/-- Witness for C9: with three filtered lines and `num_prompts = -1`, the
result keeps two lines — not an empty or at-most-`|count|` list. -/
theorem C9_witness :
    generate_prompts "a\nb\nc" (-1) = ["a", "b"] ∧
    0 < (generate_prompts "a\nb\nc" (-1)).length := by
  have h := C9_negative_slice "a\nb\nc" (-1) (by decide) (by decide)
  refine ⟨?_, h.2⟩
  rw [h.1]
  decide

/-- Claim C10: prompt derivation is deterministic in its inputs: two
collaborators that answer the constructed user prompt with the same text block
yield identical derived prompt lists for that topic and count. -/
theorem C10_determinism (llm1 llm2 : String → Except String String)
    (topic : String) (n : Int)
    (h : llm1 (mkUserPrompt topic n) = llm2 (mkUserPrompt topic n)) :
    derivePrompts llm1 topic n = derivePrompts llm2 topic n := by
  unfold derivePrompts
  rw [h]

/-- A collaborator that always answers with a fixed two-line block. -/
def llmConst : String → Except String String :=
  fun _ => Except.ok "first\nsecond"

/-- A collaborator that answers that block only on the concrete user prompt
for topic `"tides"` and count 2, and fails elsewhere. -/
def llmPointwise : String → Except String String :=
  fun q => if q == mkUserPrompt "tides" 2 then Except.ok "first\nsecond"
    else Except.error "unexpected prompt"

/-- Witness for C10: the two distinct collaborators agree on the queried point
and the derivations coincide. -/
theorem C10_witness :
    derivePrompts llmConst "tides" 2 = derivePrompts llmPointwise "tides" 2 :=
  C10_determinism llmConst llmPointwise "tides" 2 (by decide)

/-- Claim C1: with `num_prompts = 0` or an empty derived prompt list, the run
does not fail with an arithmetic division-by-zero: the per-clip division sits
inside the list comprehension and is never evaluated over an empty image list
(`mkImageClips` over `[]` succeeds without dividing), and the run instead
fails with the degenerate empty-input error raised at concatenation. -/
theorem C1_degenerate_no_division_crash (o : Oracle) (topic op : String)
    (fps : Nat) (n : Int) (ap r : String)
    (hp : o.podcast topic = Except.ok ap)
    (hl : o.llm (mkUserPrompt topic n) = Except.ok r)
    (he : n = 0 ∨ generate_prompts r n = []) :
    (generate o topic op fps n).1 = Except.error PipelineError.emptyConcatError ∧
    (generate o topic op fps n).1 ≠ Except.error PipelineError.zeroDivisionError ∧
    ∀ D : ℚ, mkImageClips D 0 [] = Except.ok [] := by
  have hpr : generate_prompts r n = [] := by
    rcases he with rfl | hh
    · simp [generate_prompts, pySliceTo]
    · exact hh
  have h1 : (generate o topic op fps n).1 =
      Except.error PipelineError.emptyConcatError := by
    simp [generate, hp, derivePrompts, hl, hpr, assembleAndCleanup, videoOf,
      synthesizeAll, mkImageClips, concatenate_videoclips]
  refine ⟨h1, ?_, fun D => rfl⟩
  rw [h1]
  simp

/-- An oracle whose collaborator answer consists only of discarded lines, so
the derived prompt list is empty. -/
def oracleNoPrompts : Oracle :=
  ⟨fun _ => Except.ok "audio.wav", fun _ => 7, fun _ => Except.ok "#header only",
   fun _ _ => ⟨none, 200, "", [], true⟩, Except.ok (), fun _ => true⟩

/-- Witness for C1 at a concrete oracle with an all-filtered response. -/
theorem C1_witness :
    (generate oracleNoPrompts "topic" "out.mp4" 24 5).1 =
      Except.error PipelineError.emptyConcatError ∧
    (generate oracleNoPrompts "topic" "out.mp4" 24 5).1 ≠
      Except.error PipelineError.zeroDivisionError ∧
    ∀ D : ℚ, mkImageClips D 0 [] = Except.ok [] :=
  C1_degenerate_no_division_crash oracleNoPrompts "topic" "out.mp4" 24 5
    "audio.wav" "#header only" rfl rfl (Or.inr (by decide))

/-- A run in which everything up to assembly succeeds (one derived prompt, one
synthesized image) but `write_videofile` raises. -/
def oracleWriteFail : Oracle :=
  ⟨fun _ => Except.ok "audio.wav", fun _ => 9, fun _ => Except.ok "a lone prompt",
   fun _ _ => ⟨none, 200, "", [0x89, 0x50, 0x4E, 0x47], true⟩,
   Except.error "encode failed", fun _ => true⟩

/-- Counterexample to claim C2 as stated: when the video-assembly step fails,
the failure propagates with no cleanup attempted — `output_1.png` was created,
`os.remove` was invoked on nothing, and the file still exists on exit. -/
theorem C2_counterexample_no_cleanup_on_failure :
    (generate oracleWriteFail "topic" "out.mp4" 24 10).1 =
      Except.error (PipelineError.writeError "encode failed") ∧
    (generate oracleWriteFail "topic" "out.mp4" 24 10).2.created = ["output_1.png"] ∧
    (generate oracleWriteFail "topic" "out.mp4" 24 10).2.cleanupAttempted = [] ∧
    (generate oracleWriteFail "topic" "out.mp4" 24 10).2.existing = ["output_1.png"] := by
  refine ⟨?_, ?_, ?_, ?_⟩ <;> decide

/-- Claim C2 as amended: the cleanup loop runs only after the whole assembly
step (clip construction, concatenation and `write_videofile`) has succeeded;
on any failure the error propagates with no removal attempted, and on success
removal is attempted on every intermediate file, with individual `os.remove`
failures swallowed. -/
theorem C2_amended_cleanup_only_on_success (o : Oracle) (topic op : String)
    (fps : Nat) (n : Int) :
    (isOkE (generate o topic op fps n).1 = false →
      (generate o topic op fps n).2.cleanupAttempted = []) ∧
    (isOkE (generate o topic op fps n).1 = true →
      (generate o topic op fps n).2.cleanupAttempted =
        (generate o topic op fps n).2.created ∧
      (generate o topic op fps n).2.existing =
        (generate o topic op fps n).2.created.filter (fun f => !o.removeOk f)) := by
  unfold generate
  split
  · simp [isOkE]
  · split
    · simp [isOkE]
    · unfold assembleAndCleanup
      split
      · simp [isOkE]
      · split
        · simp [isOkE]
        · simp [isOkE]

/-- A fully successful run: three prompts, all image calls return valid PNG
bytes, the write succeeds, every removal succeeds. -/
def oracleAllOk : Oracle :=
  ⟨fun _ => Except.ok "audio.wav", fun _ => 12, fun _ => Except.ok "a\nb\nc",
   fun _ _ => ⟨none, 200, "", [0x89, 0x50, 0x4E, 0x47], true⟩,
   Except.ok (), fun _ => true⟩

/-- Witness for the amended C2 on a concrete successful run. -/
theorem C2_witness :
    (generate oracleAllOk "topic" "out.mp4" 24 3).2.cleanupAttempted =
      (generate oracleAllOk "topic" "out.mp4" 24 3).2.created ∧
    (generate oracleAllOk "topic" "out.mp4" 24 3).2.existing =
      (generate oracleAllOk "topic" "out.mp4" 24 3).2.created.filter
        (fun f => !oracleAllOk.removeOk f) :=
  (C2_amended_cleanup_only_on_success oracleAllOk "topic" "out.mp4" 24 3).2
    (by decide)

/-- Claim C5: for every nonempty image list and audio duration `D`, assembly
succeeds; the total visible duration equals `D`; each image is displayed for
exactly `D / N` seconds; the images appear in input order back to back from
time 0 with no gaps or overlaps; and the audio track starts at time 0 with its
full duration. -/
theorem C5_assembly_timing (images : List String) (D : ℚ) (h : images ≠ []) :
    ∃ v : AssembledVideo,
      videoOf images D = Except.ok v ∧
      totalDuration v.segments = D ∧
      (∀ s ∈ v.segments, s.stop - s.start = D / (images.length : ℚ)) ∧
      v.segments.map Segment.image = images ∧
      chainedFrom v.segments 0 = true ∧
      v.audioStart = 0 ∧ v.audioDur = D := by
  have hn : images.length ≠ 0 := by
    simpa [List.length_eq_zero] using h
  have hQ : ((images.length : ℚ)) ≠ 0 := Nat.cast_ne_zero.mpr hn
  have hclips := mkImageClips_ok D images.length hn images
  have hconcat : concatenate_videoclips
        (images.map (fun img => (⟨img, D / (images.length : ℚ)⟩ : Clip))) =
      Except.ok (placeSegs
        (images.map (fun img => (⟨img, D / (images.length : ℚ)⟩ : Clip))) 0) := by
    cases images with
    | nil => exact absurd rfl h
    | cons a as => rfl
  refine ⟨⟨placeSegs (images.map (fun img =>
      (⟨img, D / (images.length : ℚ)⟩ : Clip))) 0, 0, D⟩, ?_, ?_, ?_, ?_, ?_, rfl, rfl⟩
  · simp [videoOf, hclips, hconcat, set_audio]
  · rw [placeSegs_totalDuration, List.map_map]
    have hconst : (Clip.duration ∘ fun img =>
        (⟨img, D / (images.length : ℚ)⟩ : Clip)) =
        fun _ => D / (images.length : ℚ) := rfl
    rw [hconst, List.map_const', List.sum_replicate, nsmul_eq_mul, mul_comm,
      div_mul_cancel₀ D hQ]
  · intro s hs
    refine placeSegs_seg_duration _ (D / (images.length : ℚ)) ?_ 0 s hs
    intro c hc
    rcases List.mem_map.mp hc with ⟨img, _, rfl⟩
    rfl
  · rw [placeSegs_map_image, List.map_map]
    have hid : (Clip.image ∘ fun img =>
        (⟨img, D / (images.length : ℚ)⟩ : Clip)) = id := rfl
    rw [hid, List.map_id]
  · exact placeSegs_chained _ 0

/-- Witness for C5 with two images and a 10-second audio track. -/
theorem C5_witness :
    ∃ v : AssembledVideo,
      videoOf ["a.png", "b.png"] 10 = Except.ok v ∧
      totalDuration v.segments = 10 ∧
      (∀ s ∈ v.segments, s.stop - s.start = 10 / ((["a.png", "b.png"] : List String).length : ℚ)) ∧
      v.segments.map Segment.image = ["a.png", "b.png"] ∧
      chainedFrom v.segments 0 = true ∧
      v.audioStart = 0 ∧ v.audioDur = 10 :=
  C5_assembly_timing ["a.png", "b.png"] 10 (by decide)

/-- Claim C6: the image loop yields exactly one accumulated path per derived
prompt, in prompt order, at the 1-based deterministic names `output_<i>.png`,
for every image-call oracle (so in particular also when a call fell back to
the placeholder); and in a run of `generate` the file list handed to assembly
is exactly that list for the derived prompts. -/
theorem C6_one_image_per_prompt (o : Oracle) (prompts : List String) :
    (synthesizeAll o 1 prompts).length = prompts.length ∧
    (synthesizeAll o 1 prompts).map Prod.fst =
      (List.range prompts.length).map (fun k => mkOutputFile (k + 1)) ∧
    ∀ (topic op : String) (fps : Nat) (n : Int) (ap r : String),
      o.podcast topic = Except.ok ap →
      o.llm (mkUserPrompt topic n) = Except.ok r →
      (generate o topic op fps n).2.created =
        (List.range (generate_prompts r n).length).map
          (fun k => mkOutputFile (k + 1)) := by
  have hmap : ∀ ps : List String, (synthesizeAll o 1 ps).map Prod.fst =
      (List.range ps.length).map (fun k => mkOutputFile (k + 1)) := by
    intro ps
    rw [synthesizeAll_map_fst o ps 1]
    apply List.map_congr_left
    intro k _
    congr 1
    omega
  refine ⟨synthesizeAll_length o prompts 1, hmap prompts, ?_⟩
  intro topic op fps n ap r hp hl
  have hgen : generate o topic op fps n =
      assembleAndCleanup o op
        ((synthesizeAll o 1 (generate_prompts r n)).map Prod.fst)
        (o.audioDuration ap) := by
    simp [generate, hp, derivePrompts, hl]
  rw [hgen, assembleAndCleanup_created, hmap]

/-- Witness for C6 on a concrete successful three-prompt run. -/
theorem C6_witness :
    (generate oracleAllOk "topic" "out.mp4" 24 3).2.created =
      (List.range (generate_prompts "a\nb\nc" 3).length).map
        (fun k => mkOutputFile (k + 1)) :=
  (C6_one_image_per_prompt oracleAllOk []).2.2 "topic" "out.mp4" 24 3
    "audio.wav" "a\nb\nc" rfl rfl

/-- Claim C8: a failure of the narration step, or of the text-generation call
inside prompt derivation, propagates uncaught out of `generate`: no retry, no
fallback prompt list, no intermediate file created, and no output produced. -/
theorem C8_early_failures_propagate (o : Oracle) (topic op : String)
    (fps : Nat) (n : Int) :
    (∀ e, o.podcast topic = Except.error e →
      generate o topic op fps n =
        (Except.error (PipelineError.podcastError e), ⟨[], [], [], none⟩)) ∧
    (∀ ap e, o.podcast topic = Except.ok ap →
      o.llm (mkUserPrompt topic n) = Except.error e →
      generate o topic op fps n =
        (Except.error (PipelineError.llmError e), ⟨[], [], [], none⟩)) := by
  constructor
  · intro e he
    simp [generate, he]
  · intro ap e hp hl
    simp [generate, hp, derivePrompts, hl]

/-- An oracle whose narration step fails. -/
def oraclePodcastFail : Oracle :=
  ⟨fun _ => Except.error "tts backend down", fun _ => 0, fun _ => Except.ok "a",
   fun _ _ => ⟨none, 200, "", [], true⟩, Except.ok (), fun _ => true⟩

/-- Witness for C8 at a concrete narration failure. -/
theorem C8_witness :
    generate oraclePodcastFail "topic" "out.mp4" 24 10 =
      (Except.error (PipelineError.podcastError "tts backend down"),
        ⟨[], [], [], none⟩) :=
  (C8_early_failures_propagate oraclePodcastFail "topic" "out.mp4" 24 10).1
    "tts backend down" rfl

end VideoPy
